import Mathlib

/-!
Shallow embedding of `src/main.py` (appflotacion): a Streamlit dashboard that
loads a serialized regression model and, on a button press, builds a pandas
DataFrame from slider inputs and renders the model prediction.

Modelling conventions:
* Numeric slider/prediction values are exact rationals (`ℚ`); Python floats
  are modelled as their decimal values.
* A script run is pure: the loaded model, the button state and the three
  slider values are explicit arguments, and the run returns the list of
  rendered Streamlit messages, the list of records passed to
  `model.predict`, and the uncaught exception aborting the run, if any.
* Python exceptions are strings.  `joblib.load` is an external call modelled
  by a function argument returning its outcome (successful deserialization,
  `FileNotFoundError`, or any other raised exception).
-/

namespace Flotacion

/-- A Streamlit message rendered to the page. -/
inductive Msg where
  | success (s : String)
  | info (s : String)
  | error (s : String)
  | warning (s : String)
  | subheader (s : String)
  deriving DecidableEq, Repr

/-- A pandas DataFrame row as built at `df_input` (src/main.py:85-89):
an ordered association of column names to numeric values. -/
abbrev FeatureRecord := List (String × ℚ)

/-- A deserialized predictor: `model.predict(df)` either returns a sequence
of numbers or raises (modelled as `Except.error`). -/
def Predictor := FeatureRecord → Except String (List ℚ)

/-- Outcome of the external `joblib.load(path)` call (src/main.py:21):
successful deserialization, a raised `FileNotFoundError`, or any other
raised exception (e.g. `PermissionError` for an existing unreadable file). -/
inductive JoblibOutcome (P : Type) where
  | ok (m : P)
  | fileNotFound
  | raised (e : String)

/-- The `st.error` text of `load_model` (src/main.py:24). -/
def fnfMsg (path : String) : String :=
  "Error: No se encontró el archivo del modelo en " ++ path ++
    ". Asegúrate de que el archivo del modelo esté en el directorio correcto."

/-- `load_model` (src/main.py:17-25): calls `joblib.load(model_path)` inside
`try`, catching only `FileNotFoundError` (returning `None` after an
`st.error` naming the path).  Any other exception propagates uncaught
(`Except.error`).  Returns the predictor option and the rendered messages. -/
def load_model {P : Type} (joblibLoad : String → JoblibOutcome P)
    (model_path : String) : Except String (Option P × List Msg) :=
  match joblibLoad model_path with
  | .ok m => .ok (some m, [])
  | .fileNotFound => .ok (none, [Msg.error (fnfMsg model_path)])
  | .raised e => .error e

/-- The slider configuration passed to `st.slider`. -/
structure SliderCfg where
  label : String
  min_value : ℚ
  max_value : ℚ
  value : ℚ
  step : ℚ
  deriving DecidableEq

/-- The amine-flow slider, bound to `flowrate` (src/main.py:38-44). -/
def flowrate_slider : SliderCfg :=
  { label := "Caudal de amina (m³/s)"
    min_value := 2417/10
    max_value := 7393/10
    value := 48843/100
    step := 1 }

/-- The column-1 air-flow slider, bound to `temperature` (src/main.py:48-54). -/
def temperature_slider : SliderCfg :=
  { label := "Flujo de aire que ingresa a la columna 1 (m³/s)"
    min_value := 17585/100
    max_value := 37244/100
    value := 28013/100
    step := 1 }

/-- The iron-concentrate slider, bound to `pressure` (src/main.py:58-64). -/
def pressure_slider : SliderCfg :=
  { label := "Concentración de Hierro (%)"
    min_value := 6251/100
    max_value := 6801/100
    value := 0
    step := 1 }

/-- The numeric global bindings in scope when `df_input` is evaluated.
The script assigns exactly `model`, `flowrate`, `temperature`, `pressure`
before line 85 (and `df_input`, `prediction_value` after); the slider
bindings are the numeric ones.  Neither `flowrateAmina` nor
`IronConcentrate` is assigned anywhere in the program. -/
def scriptEnv (flowrate temperature pressure : ℚ) : List (String × ℚ) :=
  [("flowrate", flowrate), ("temperature", temperature), ("pressure", pressure)]

/-- Evaluating a bare name in Python: a lookup in the environment, raising
`NameError` when the name is unbound. -/
def evalName (env : List (String × ℚ)) (x : String) : Except String ℚ :=
  match env.lookup x with
  | some v => .ok v
  | none => .error ("NameError: name " ++ x ++ " is not defined")

/-- The `df_input` construction (src/main.py:85-89): a DataFrame literal
whose values are the names `flowrateAmina`, `flowrate`, `IronConcentrate`,
evaluated left to right; the first unbound name raises `NameError`. -/
def mkDfInput (env : List (String × ℚ)) : Except String FeatureRecord :=
  match evalName env "flowrateAmina" with
  | .error e => .error e
  | .ok a =>
    match evalName env "flowrate" with
    | .error e => .error e
    | .ok f =>
      match evalName env "IronConcentrate" with
      | .error e => .error e
      | .ok i =>
        .ok [("Amina Flow", a),
             ("Flotation Column 01 Air Flow", f),
             ("% Iron Concentrate", i)]

/-- One observable outcome of a script run: the rendered messages, the
records passed to `model.predict`, and the uncaught exception, if any. -/
structure RunOut where
  msgs : List Msg
  calls : List FeatureRecord
  exn : Option String
  deriving DecidableEq

/-- The number of hundredths in `q`, rounded to nearest with ties to even —
the rounding of Python float formatting, with floats modelled as exact
rationals.  Computed on the numerator and denominator: with `n = 100·num`,
`d = den > 0`, `f = ⌊n/d⌋` and remainder `r = n - f·d ∈ [0, d)`, the
fractional part `r/d` is compared with `1/2` via `2r` against `d`. -/
def hundredths (q : ℚ) : ℤ :=
  let n : ℤ := q.num * 100
  let d : ℤ := (q.den : ℤ)
  let f : ℤ := Int.fdiv n d
  let r : ℤ := n - f * d
  if 2 * r < d then f
  else if d < 2 * r then f + 1
  else if f % 2 = 0 then f else f + 1

/-- Two-digit zero-padded rendering of a remainder below 100. -/
def pad2 (r : ℕ) : String :=
  if r < 10 then "0" ++ toString r else toString r

/-- The Python format specifier `:.2f`: fixed-point with exactly two
decimal places. -/
def fmt2 (q : ℚ) : String :=
  let c : ℤ := hundredths q
  if c < 0 then
    "-" ++ toString ((-c) / 100) ++ "." ++ pad2 ((-c) % 100).toNat
  else
    toString (c / 100) ++ "." ++ pad2 (c % 100).toNat

/-- The `st.subheader` text (src/main.py:94). -/
def resultHeader : String := "📈 Resultado de la Predicción"

/-- The `st.success` text (src/main.py:96), with `prediction_value[0]`
formatted by `:.2f`. -/
def succMsg (v : ℚ) : String :=
  "**% Concentracion de Sílice Predicho:** `" ++ fmt2 v ++ "%`"

/-- The `st.info` text (src/main.py:97). -/
def infoMsg : String :=
  "Este valor representa el porcentaje estimado del % de la concentración de sílice despues del proceso de flotación."

/-- The `st.error` text of the prediction handler (src/main.py:99). -/
def predErrMsg (e : String) : String :=
  "Ocurrió un error durante la predicción: " ++ e

/-- The exception raised by `prediction_value[0]` on an empty result. -/
def idxErrMsg : String := "IndexError: index 0 is out of bounds for axis 0"

/-- The `try`/`except` block (src/main.py:92-99): `model.predict(df_input)`,
then `st.subheader`, then `st.success` with `prediction_value[0]:.2f`, then
`st.info`; `except Exception` renders `st.error` with the original error
text.  `st.subheader` renders before `prediction_value[0]` is evaluated, so
an empty result leaves the subheader rendered before the handler fires. -/
def tryPredict (m : Predictor) (df : FeatureRecord) : RunOut :=
  match m df with
  | .error e => ⟨[Msg.error (predErrMsg e)], [df], none⟩
  | .ok [] => ⟨[Msg.subheader resultHeader, Msg.error (predErrMsg idxErrMsg)], [df], none⟩
  | .ok (v :: _) =>
      ⟨[Msg.subheader resultHeader, Msg.success (succMsg v), Msg.info infoMsg], [df], none⟩

/-- The `st.warning` text (src/main.py:101). -/
def warnMsg : String :=
  "El modelo no pudo ser cargado. Por favor, verifica la ruta del archivo del modelo."

/-- The prediction section (src/main.py:80-101): with a loaded model and the
button pressed, build `df_input` (outside the `try`, so its exception is
uncaught) and run the `try`/`except` block; with no model, render the
persistent warning. -/
def scriptRun (model : Option Predictor) (pressed : Bool)
    (flowrate temperature pressure : ℚ) : RunOut :=
  match model with
  | some m =>
    if pressed then
      match mkDfInput (scriptEnv flowrate temperature pressure) with
      | .error e => ⟨[], [], some e⟩
      | .ok df => tryPredict m df
    else ⟨[], [], none⟩
  | none => ⟨[Msg.warning warnMsg], [], none⟩

/-- State of the `@st.cache_resource` cache (src/main.py:17): memoization
keyed by the argument, with a count of underlying invocations. -/
structure CacheState (α : Type) where
  table : List (String × α)
  loadCount : ℕ

/-- The empty cache at process start. -/
def cache0 {α : Type} : CacheState α := ⟨[], 0⟩

/-- One call through `@st.cache_resource`: a hit returns the cached value
unchanged; a miss invokes the underlying function once and stores the
result keyed by the argument. -/
def cachedCall {α : Type} (f : String → α) (s : CacheState α) (p : String) :
    α × CacheState α :=
  match s.table.lookup p with
  | some v => (v, s)
  | none => (f p, ⟨(p, f p) :: s.table, s.loadCount + 1⟩)

/-- `n + 1` successive calls through the cache with the same argument,
returning the last result and the final cache state. -/
def repeatCall {α : Type} (f : String → α) (p : String) :
    ℕ → CacheState α → α × CacheState α
  | 0, s => cachedCall f s p
  | n + 1, s => repeatCall f p n (cachedCall f s p).2

/-- A stub predictor returning a fixed singleton prediction. -/
def stubOk : Predictor := fun _ => .ok [0]

/-- A second stub predictor, extensionally equal to `stubOk`. -/
def stubOk2 : Predictor := fun df => .ok (0 :: List.take 0 (List.map Prod.snd df))

/-- A stub predictor that raises on `predict`. -/
def stubRaise : Predictor := fun _ => .error "boom"

/-- A stub predictor returning the fixed value 65.4321. -/
def stub65 : Predictor := fun _ => .ok [mkRat 654321 10000]

/-- A hypothetical environment binding every name `df_input` references. -/
def envW : List (String × ℚ) :=
  [("flowrateAmina", 1), ("flowrate", 2), ("IronConcentrate", 3)]

/-- A model of `joblib.load` on an existing but unreadable artifact file:
CPython raises `PermissionError` (not `FileNotFoundError`) there. -/
def permJoblib : String → JoblibOutcome Unit :=
  fun _ => .raised "PermissionError: Permission denied"

/-- A model of `joblib.load` on a nonexistent artifact file. -/
def fnfJoblib : String → JoblibOutcome Unit := fun _ => .fileNotFound

/-- C1: with the model loaded and the button pressed, the boundary runs at
all-minimum and all-maximum slider values do not build a record from the
slider values: both abort with an uncaught `NameError` on the unbound name
`flowrateAmina`, rendering nothing and never calling the predictor. -/
theorem boundary_run_raises_name_error :
    scriptRun (some stubOk) true (2417/10) (17585/100) (6251/100) =
      ⟨[], [], some "NameError: name flowrateAmina is not defined"⟩ ∧
    scriptRun (some stubOk) true (7393/10) (37244/100) (6801/100) =
      ⟨[], [], some "NameError: name flowrateAmina is not defined"⟩ :=
  ⟨rfl, rfl⟩

/-- C2: the names `flowrateAmina` and `IronConcentrate` referenced by
`df_input` are bound nowhere among the script's numeric bindings; with a
loaded model and the button pressed the run aborts with an uncaught
`NameError` (no message rendered, no predict call, so the success branch is
unreachable and the try/except handler never fires); the outcome is
independent of the `temperature` and `pressure` slider values, which are
never read. -/
theorem df_input_unbound_names_uncaught :
    (∀ f t p : ℚ,
      (scriptEnv f t p).lookup "flowrateAmina" = none ∧
      (scriptEnv f t p).lookup "IronConcentrate" = none) ∧
    (∀ (m : Predictor) (f t p : ℚ),
      scriptRun (some m) true f t p =
        ⟨[], [], some "NameError: name flowrateAmina is not defined"⟩) ∧
    (∀ (m : Predictor) (f t p t' p' : ℚ),
      scriptRun (some m) true f t p = scriptRun (some m) true f t' p') :=
  ⟨fun _ _ _ => ⟨rfl, rfl⟩, fun _ _ _ _ => rfl, fun _ _ _ _ _ _ => rfl⟩

/-- C3: every successfully constructed `df_input` record has exactly the
three expected column identifiers and no others, and every record passed
to `model.predict` in any run has exactly those identifiers. -/
theorem record_fields_exact :
    (∀ (env : List (String × ℚ)) (r : FeatureRecord), mkDfInput env = .ok r →
      List.map Prod.fst r =
        ["Amina Flow", "Flotation Column 01 Air Flow", "% Iron Concentrate"]) ∧
    (∀ (model : Option Predictor) (pressed : Bool) (f t p : ℚ)
        (r : FeatureRecord), r ∈ (scriptRun model pressed f t p).calls →
      List.map Prod.fst r =
        ["Amina Flow", "Flotation Column 01 Air Flow", "% Iron Concentrate"]) := by
  constructor
  · intro env r h
    unfold mkDfInput at h
    cases h1 : evalName env "flowrateAmina" with
    | error e => rw [h1] at h; cases h
    | ok a =>
      rw [h1] at h
      cases h2 : evalName env "flowrate" with
      | error e => rw [h2] at h; cases h
      | ok f =>
        rw [h2] at h
        cases h3 : evalName env "IronConcentrate" with
        | error e => rw [h3] at h; cases h
        | ok i =>
          rw [h3] at h
          injection h with h
          rw [← h]
          rfl
  · intro model pressed f t p r hr
    have hc : (scriptRun model pressed f t p).calls = [] := by
      cases model <;> cases pressed <;> rfl
    rw [hc] at hr
    cases hr

/-- C3 witness: at an environment binding all three referenced names, the
constructed record has exactly the three expected identifiers. -/
theorem record_fields_exact_witness :
    List.map Prod.fst
        [("Amina Flow", (1 : ℚ)), ("Flotation Column 01 Air Flow", 2),
         ("% Iron Concentrate", 3)] =
      ["Amina Flow", "Flotation Column 01 Air Flow", "% Iron Concentrate"] :=
  record_fields_exact.1 envW _ rfl

/-- C4: every exception raised by `model.predict` is caught by the handler:
the run renders exactly one error message containing the original error
text, no success output, and does not crash (no uncaught exception). -/
theorem predict_exception_caught (m : Predictor) (df : FeatureRecord)
    (e : String) (h : m df = .error e) :
    tryPredict m df = ⟨[Msg.error (predErrMsg e)], [df], none⟩ ∧
    ∃ pre, predErrMsg e = pre ++ e := by
  constructor
  · unfold tryPredict
    rw [h]
  · exact ⟨"Ocurrió un error durante la predicción: ", rfl⟩

/-- C4 witness: a stub predictor raising "boom" yields exactly the caught
error message. -/
theorem predict_exception_caught_witness :
    tryPredict stubRaise [("Amina Flow", 1)] =
      ⟨[Msg.error (predErrMsg "boom")], [[("Amina Flow", 1)]], none⟩ :=
  (predict_exception_caught stubRaise [("Amina Flow", 1)] "boom" rfl).1

/-- C6: when the predictor returns a nonempty sequence, the run renders the
subheader, a success message displaying the first element formatted to two
decimal places, and the info sentence, with no uncaught exception. -/
theorem success_renders_two_decimals (m : Predictor) (df : FeatureRecord)
    (v : ℚ) (rest : List ℚ) (h : m df = .ok (v :: rest)) :
    tryPredict m df =
      ⟨[Msg.subheader resultHeader, Msg.success (succMsg v), Msg.info infoMsg],
       [df], none⟩ ∧
    ∃ pre post, succMsg v = pre ++ fmt2 v ++ post := by
  constructor
  · unfold tryPredict
    rw [h]
  · exact ⟨"**% Concentracion de Sílice Predicho:** `", "%`", rfl⟩

/-- C6 witness: a stub predictor returning 65.4321 renders the success
message, and 65.4321 formats to "65.43". -/
theorem success_renders_two_decimals_witness :
    tryPredict stub65 [] =
      ⟨[Msg.subheader resultHeader, Msg.success (succMsg (mkRat 654321 10000)),
        Msg.info infoMsg], [[]], none⟩ ∧
    fmt2 (mkRat 654321 10000) = "65.43" :=
  ⟨(success_renders_two_decimals stub65 [] (mkRat 654321 10000) [] rfl).1,
    by decide⟩

/-- C5 counterexample: a path whose file exists but is not readable makes
`joblib.load` raise `PermissionError`, which `load_model` does not catch:
the call raises instead of returning an absent predictor. -/
theorem unreadable_path_raises :
    load_model permJoblib "model_flotacion.joblib" =
      .error "PermissionError: Permission denied" := rfl

/-- C5 (amended): for every path on which the loader raises
`FileNotFoundError` (the path does not exist), `load_model` returns an
absent predictor without raising and renders a diagnostic naming the
path. -/
theorem missing_file_returns_none (P : Type)
    (joblibLoad : String → JoblibOutcome P) (path : String)
    (h : joblibLoad path = .fileNotFound) :
    load_model joblibLoad path = .ok (none, [Msg.error (fnfMsg path)]) ∧
    ∃ pre post, fnfMsg path = pre ++ path ++ post := by
  constructor
  · unfold load_model
    rw [h]
  · exact ⟨"Error: No se encontró el archivo del modelo en ",
      ". Asegúrate de que el archivo del modelo esté en el directorio correcto.",
      rfl⟩

/-- C5 witness: on a nonexistent path the loader returns `none` and the
diagnostic names the path. -/
theorem missing_file_returns_none_witness :
    load_model fnfJoblib "model_flotacion.joblib" =
      .ok (none, [Msg.error (fnfMsg "model_flotacion.joblib")]) :=
  (missing_file_returns_none Unit fnfJoblib "model_flotacion.joblib" rfl).1

/-- C7: whenever the loader returned a null predictor, every run renders
exactly the persistent unavailable-model warning, passes no record to any
predictor, and raises nothing: no prediction is ever attempted. -/
theorem null_model_warns_never_predicts :
    ∀ (pressed : Bool) (f t p : ℚ),
      scriptRun none pressed f t p = ⟨[Msg.warning warnMsg], [], none⟩ :=
  fun _ _ _ _ => rfl

/-- C8: the three sliders expose exactly the {min, max, default, step}
configuration of the interface table, and the iron-concentrate default 0
lies outside its declared range [62.51, 68.01]. -/
theorem slider_configs_match_table :
    flowrate_slider =
      ⟨"Caudal de amina (m³/s)", 2417/10, 7393/10, 48843/100, 1⟩ ∧
    temperature_slider =
      ⟨"Flujo de aire que ingresa a la columna 1 (m³/s)", 17585/100,
       37244/100, 28013/100, 1⟩ ∧
    pressure_slider =
      ⟨"Concentración de Hierro (%)", 6251/100, 6801/100, 0, 1⟩ ∧
    ¬ (pressure_slider.min_value ≤ pressure_slider.value ∧
       pressure_slider.value ≤ pressure_slider.max_value) := by
  refine ⟨rfl, rfl, rfl, fun h => ?_⟩
  have h1 : (6251 : ℚ)/100 ≤ 0 := h.1
  norm_num at h1

/-- Cache hit: a call whose key is already in the table returns the cached
value and leaves the state unchanged. -/
theorem cachedCall_hit {α : Type} (f : String → α) (p : String) :
    cachedCall f ⟨[(p, f p)], 1⟩ p = (f p, ⟨[(p, f p)], 1⟩) := by
  simp [cachedCall, List.lookup]

/-- Every further sequence of calls from the one-entry cache is a pure
cache hit returning the cached value with the state unchanged. -/
theorem repeatCall_hit {α : Type} (f : String → α) (p : String) :
    ∀ n, repeatCall f p n ⟨[(p, f p)], 1⟩ = (f p, ⟨[(p, f p)], 1⟩) := by
  intro n
  induction n with
  | zero => exact cachedCall_hit f p
  | succ k ih =>
    unfold repeatCall
    rw [cachedCall_hit f p]
    exact ih

/-- C9: starting from the empty cache, any number of calls with the same
path invokes the underlying deserialization exactly once (final load count
1) and every call returns the same predictor `f p`; moreover a call on the
filled cache is a pure hit leaving the state unchanged. -/
theorem same_path_deserializes_once {α : Type} (f : String → α) (p : String) :
    (∀ n, repeatCall f p n cache0 = (f p, ⟨[(p, f p)], 1⟩)) ∧
    cachedCall f ⟨[(p, f p)], 1⟩ p = (f p, ⟨[(p, f p)], 1⟩) := by
  constructor
  · intro n
    have h0 : cachedCall f cache0 p = (f p, ⟨[(p, f p)], 1⟩) := rfl
    cases n with
    | zero => exact h0
    | succ k =>
      unfold repeatCall
      rw [h0]
      exact repeatCall_hit f p k
  · exact cachedCall_hit f p

/-- C10: two predictors with identical input-output behavior give identical
rendered output on every run with identical slider values and button state:
the read-assemble-predict-render sequence is deterministic in its
inputs. -/
theorem deterministic_output (m₁ m₂ : Predictor) (h : ∀ r, m₁ r = m₂ r) :
    (∀ df, tryPredict m₁ df = tryPredict m₂ df) ∧
    (∀ (pressed : Bool) (f t p : ℚ),
      scriptRun (some m₁) pressed f t p = scriptRun (some m₂) pressed f t p) := by
  constructor
  · intro df
    unfold tryPredict
    rw [h df]
  · intro pressed f t p
    cases pressed <;> rfl

/-- C10 witness: two extensionally equal stub predictors give identical
output. -/
theorem deterministic_output_witness :
    tryPredict stubOk [] = tryPredict stubOk2 [] :=
  (deterministic_output stubOk stubOk2 (fun _ => rfl)).1 []

end Flotacion
